import Mathlib

/-!
Verification of the microgrid planner sizing engine (`app.py`).

The sizing computation in `size_system` is straight-line arithmetic over
real numbers plus `min`, `median`, `max` and `ceil`; we embed it over `ℚ`
(every constant in the source is an exact decimal, so all intermediate
values are exact rationals).  Fallible steps (`raise ValueError`) are
embedded as `Except String`.  Python's `float("inf")` sentinel for the
LCOE is embedded as `Option ℚ` with `none` standing for the infinite
sentinel.  Display rounding (the `rnd` helper in the source) happens only
at presentation according to the design and is not part of the result
record modelled here: the record holds the unrounded intermediates.
-/

/-! ### Configurable defaults (source lines 16-58) -/

def PR : ℚ := 0.75

def PANEL_WATTS : ℚ := 400

def BATTERY_UNIT_KWH : ℚ := 5.0

def INVERTER_UTIL_KW_PER_PV : ℚ := 0.8

def GENERATOR_SF : ℚ := 1.25

def BATTERY_DOD : ℚ := 0.90

def BATTERY_ROUNDTRIP : ℚ := 0.90

def BATTERY_EFFECTIVE : ℚ := BATTERY_DOD * BATTERY_ROUNDTRIP

def GEN_SPEC_CONS_L_PER_KWH : ℚ := 0.27

def PV_UTILIZATION : ℚ := 0.90

def WACC : ℚ := 0.08

def LIFE_PV_YRS : ℕ := 20

def LIFE_BATT_YRS : ℕ := 10

def LIFE_INV_YRS : ℕ := 10

def LIFE_GEN_YRS : ℕ := 10

/-- Cost assumptions (source lines 40-47), passed as one record so that
scenario rescaling can be stated; `defaultCosts` holds the source values. -/
structure Costs where
  pv_per_kw : ℚ
  batt_per_kwh : ℚ
  inv_per_kw : ℚ
  gen_per_kw : ℚ
  om_pv_per_kw_yr : ℚ
  om_batt_per_kwh_yr : ℚ
  om_gen_per_kw_yr : ℚ
deriving DecidableEq

def defaultCosts : Costs :=
  { pv_per_kw := 1200.0
    batt_per_kwh := 400.0
    inv_per_kw := 200.0
    gen_per_kw := 300.0
    om_pv_per_kw_yr := 20.0
    om_batt_per_kwh_yr := 5.0
    om_gen_per_kw_yr := 20.0 }

/-- Uniform rescaling of every monetary rate in the cost table. -/
def scaleCosts (k : ℚ) (c : Costs) : Costs :=
  { pv_per_kw := k * c.pv_per_kw
    batt_per_kwh := k * c.batt_per_kwh
    inv_per_kw := k * c.inv_per_kw
    gen_per_kw := k * c.gen_per_kw
    om_pv_per_kw_yr := k * c.om_pv_per_kw_yr
    om_batt_per_kwh_yr := k * c.om_batt_per_kwh_yr
    om_gen_per_kw_yr := k * c.om_gen_per_kw_yr }

/-! ### Helper functions (source lines 233-241) -/

/-- Capital recovery factor `crf(rate, n_years)`. -/
def crf (rate : ℚ) (n_years : ℕ) : ℚ :=
  if rate ≤ 0 then 1 / (n_years : ℚ)
  else
    let r1 := (1 + rate) ^ n_years
    rate * r1 / (r1 - 1)

/-- Rounding helper: `round_up_to_step(x, step) = math.ceil(x / step) * step`. -/
def round_up_to_step (x step : ℚ) : ℚ := (⌈x / step⌉ : ℤ) * step

/-- Python `min` over a list (raises on `[]`, which never occurs for a
12-value series; we return 0 there). -/
def pymin : List ℚ → ℚ
  | [] => 0
  | x :: xs => xs.foldl min x

/-- Python `statistics.median`: sort, middle element for odd length,
mean of the two middle elements for even length. -/
def median (l : List ℚ) : ℚ :=
  let s := List.insertionSort (· ≤ ·) l
  let n := l.length
  if n % 2 = 1 then s.getD (n / 2) 0
  else (s.getD (n / 2 - 1) 0 + s.getD (n / 2) 0) / 2

/-! ### Irradiance provider validation (`fetch_nasa_ghi`, source lines 243-256)

The provider's parsed JSON month map is abstracted as a partial map from
month name to a JSON value that is either numeric (convertible by
`float`) or not. -/

/-- A JSON value at a month key: numeric, or something `float()` rejects. -/
inductive JVal where
  | num (q : ℚ)
  | other
deriving DecidableEq

def months_order : List String :=
  ["JAN", "FEB", "MAR", "APR", "MAY", "JUN",
   "JUL", "AUG", "SEP", "OCT", "NOV", "DEC"]

/-- The list comprehension
`[float(param[m]) for m in months_order if m in param]`:
absent months are filtered out, a non-numeric value raises. -/
def collect_values (param : String → Option JVal) : List String → Except String (List ℚ)
  | [] => Except.ok []
  | m :: ms =>
    match param m with
    | none => collect_values param ms
    | some (JVal.num q) => (collect_values param ms).map (fun l => q :: l)
    | some JVal.other => Except.error "could not convert value to float"

/-- Validation stage of `fetch_nasa_ghi` after JSON parsing: build the
monthly value list and require exactly 12 entries. -/
def fetch_nasa_ghi (param : String → Option JVal) : Except String (List ℚ) :=
  (collect_values param months_order).bind fun values =>
    if values.length = 12 then Except.ok values
    else Except.error "NASA POWER: expected 12 monthly GHI values"

/-! ### Sizing engine intermediates (`size_system`, source lines 258-328)

Each definition mirrors one assignment in the source, taking exactly the
inputs that assignment reads. -/

def ghi_worst (ghi : List ℚ) : ℚ := pymin ghi

def ghi_median (ghi : List ℚ) : ℚ := median ghi

def e_pv_per_kw_day (ghi : List ℚ) : ℚ := ghi_worst ghi * PR

/-- Source line: `seasonality_ratio = (ghi_median / ghi_worst) if ghi_worst > 0 else 1.0` -/
def seasonality (ghi : List ℚ) : ℚ :=
  if 0 < ghi_worst ghi then ghi_median ghi / ghi_worst ghi else 1

/-- PV capacity `pv_kw`, including the 15% seasonality bump when the ratio exceeds 1.4. -/
def pv_kw (ghi : List ℚ) (load_kwh_day solar_fraction : ℚ) : ℚ :=
  let base := load_kwh_day * solar_fraction / e_pv_per_kw_day ghi
  if 1.4 < seasonality ghi then base * 1.15 else base

def batt_kwh (load_kwh_day autonomy_days : ℚ) : ℚ :=
  load_kwh_day * autonomy_days / BATTERY_EFFECTIVE

def peak_kw (load_kwh_day load_factor : ℚ) : ℚ :=
  load_kwh_day / (24.0 * max 0.05 load_factor)

def gen_kw (load_kwh_day load_factor : ℚ) : ℚ :=
  GENERATOR_SF * peak_kw load_kwh_day load_factor

def inverter_kw (ghi : List ℚ) (load_kwh_day solar_fraction load_factor : ℚ) : ℚ :=
  max (peak_kw load_kwh_day load_factor)
    (INVERTER_UTIL_KW_PER_PV * pv_kw ghi load_kwh_day solar_fraction)

def panel_count (ghi : List ℚ) (load_kwh_day solar_fraction : ℚ) : ℤ :=
  ⌈pv_kw ghi load_kwh_day solar_fraction * 1000.0 / PANEL_WATTS⌉

def battery_count (load_kwh_day autonomy_days : ℚ) : ℤ :=
  ⌈batt_kwh load_kwh_day autonomy_days / BATTERY_UNIT_KWH⌉

def annual_load (load_kwh_day : ℚ) : ℚ := load_kwh_day * 365.0

def annual_pv_energy (ghi : List ℚ) (load_kwh_day solar_fraction : ℚ) : ℚ :=
  pv_kw ghi load_kwh_day solar_fraction * e_pv_per_kw_day ghi * 365.0

def served_by_pv_batt (ghi : List ℚ) (load_kwh_day solar_fraction : ℚ) : ℚ :=
  min (annual_load load_kwh_day) (annual_pv_energy ghi load_kwh_day solar_fraction)
    * PV_UTILIZATION

def served_by_gen (ghi : List ℚ) (load_kwh_day solar_fraction : ℚ) : ℚ :=
  max 0 (annual_load load_kwh_day - served_by_pv_batt ghi load_kwh_day solar_fraction)

def annual_fuel_liters (ghi : List ℚ) (load_kwh_day solar_fraction : ℚ) : ℚ :=
  served_by_gen ghi load_kwh_day solar_fraction * GEN_SPEC_CONS_L_PER_KWH

def annual_fuel_cost (ghi : List ℚ) (load_kwh_day solar_fraction fuel_cost_usd_per_l : ℚ) : ℚ :=
  annual_fuel_liters ghi load_kwh_day solar_fraction * fuel_cost_usd_per_l

def gen_nameplate_kw (load_kwh_day load_factor : ℚ) : ℚ :=
  round_up_to_step (gen_kw load_kwh_day load_factor) 5.0

def capex_pv (c : Costs) (ghi : List ℚ) (load_kwh_day solar_fraction : ℚ) : ℚ :=
  pv_kw ghi load_kwh_day solar_fraction * c.pv_per_kw

def capex_batt (c : Costs) (load_kwh_day autonomy_days : ℚ) : ℚ :=
  batt_kwh load_kwh_day autonomy_days * c.batt_per_kwh

def capex_inv (c : Costs) (ghi : List ℚ) (load_kwh_day solar_fraction load_factor : ℚ) : ℚ :=
  inverter_kw ghi load_kwh_day solar_fraction load_factor * c.inv_per_kw

def capex_gen (c : Costs) (load_kwh_day load_factor : ℚ) : ℚ :=
  gen_nameplate_kw load_kwh_day load_factor * c.gen_per_kw

def capex_total (c : Costs) (ghi : List ℚ) (load_kwh_day solar_fraction autonomy_days load_factor : ℚ) : ℚ :=
  capex_pv c ghi load_kwh_day solar_fraction + capex_batt c load_kwh_day autonomy_days
    + capex_inv c ghi load_kwh_day solar_fraction load_factor
    + capex_gen c load_kwh_day load_factor

def annual_om (c : Costs) (ghi : List ℚ) (load_kwh_day solar_fraction autonomy_days load_factor : ℚ) : ℚ :=
  pv_kw ghi load_kwh_day solar_fraction * c.om_pv_per_kw_yr
    + batt_kwh load_kwh_day autonomy_days * c.om_batt_per_kwh_yr
    + gen_nameplate_kw load_kwh_day load_factor * c.om_gen_per_kw_yr

def annualize (capex : ℚ) (life : ℕ) : ℚ := capex * crf WACC life

def annualized_pv (c : Costs) (ghi : List ℚ) (load_kwh_day solar_fraction : ℚ) : ℚ :=
  annualize (capex_pv c ghi load_kwh_day solar_fraction) LIFE_PV_YRS

def annualized_batt (c : Costs) (load_kwh_day autonomy_days : ℚ) : ℚ :=
  annualize (capex_batt c load_kwh_day autonomy_days) LIFE_BATT_YRS

def annualized_inv (c : Costs) (ghi : List ℚ) (load_kwh_day solar_fraction load_factor : ℚ) : ℚ :=
  annualize (capex_inv c ghi load_kwh_day solar_fraction load_factor) LIFE_INV_YRS

def annualized_gen (c : Costs) (load_kwh_day load_factor : ℚ) : ℚ :=
  annualize (capex_gen c load_kwh_day load_factor) LIFE_GEN_YRS

def total_annual_cost (c : Costs) (ghi : List ℚ)
    (load_kwh_day fuel_cost_usd_per_l solar_fraction autonomy_days load_factor : ℚ) : ℚ :=
  annualized_pv c ghi load_kwh_day solar_fraction
    + annualized_batt c load_kwh_day autonomy_days
    + annualized_inv c ghi load_kwh_day solar_fraction load_factor
    + annualized_gen c load_kwh_day load_factor
    + annual_om c ghi load_kwh_day solar_fraction autonomy_days load_factor
    + annual_fuel_cost ghi load_kwh_day solar_fraction fuel_cost_usd_per_l

/-- Source line: `lcoe = total_annual_cost / annual_load if annual_load > 0 else inf`;
here `none` embeds the infinite sentinel. -/
def lcoe (c : Costs) (ghi : List ℚ)
    (load_kwh_day fuel_cost_usd_per_l solar_fraction autonomy_days load_factor : ℚ) : Option ℚ :=
  if 0 < annual_load load_kwh_day then
    some (total_annual_cost c ghi load_kwh_day fuel_cost_usd_per_l solar_fraction
      autonomy_days load_factor / annual_load load_kwh_day)
  else none

/-! ### Warnings (source lines 331-339) -/

def warn_low_sun : String :=
  "Low winter sun (worst-month GHI < 1.5 kWh/m²/day): expect significant generator runtime."

def warn_seasonality : String :=
  "High seasonality detected: PV capacity increased by 15% for reliability."

def warn_resilience : String :=
  "For very high renewables targets, consider ≥1 day autonomy for resilience."

def warn_inverter : String :=
  "Inverter undersized vs. peak load; increase inverter rating."

def warnings (ghi : List ℚ) (load_kwh_day solar_fraction autonomy_days load_factor : ℚ) : List String :=
  (if ghi_worst ghi < 1.5 then [warn_low_sun] else [])
    ++ (if 1.4 < seasonality ghi then [warn_seasonality] else [])
    ++ (if 0.95 ≤ solar_fraction ∧ autonomy_days < 1.0 then [warn_resilience] else [])
    ++ (if inverter_kw ghi load_kwh_day solar_fraction load_factor
          < peak_kw load_kwh_day load_factor then [warn_inverter] else [])

/-! ### The result record and `size_system` (source lines 258-377) -/

/-- The result dict of `size_system`, with unrounded values (display
rounding is presentation-only); counts are the Python `int`s. -/
structure SizeResult where
  ghi_worst : ℚ
  ghi_median : ℚ
  e_pv_per_kw_day : ℚ
  pv_kw : ℚ
  batt_kwh : ℚ
  inverter_kw : ℚ
  gen_kw : ℚ
  panel_count : ℤ
  battery_count : ℤ
  annual_load : ℚ
  annual_pv_energy : ℚ
  served_by_pv_batt : ℚ
  served_by_gen : ℚ
  annual_fuel_liters : ℚ
  annual_fuel_cost : ℚ
  capex_pv : ℚ
  capex_batt : ℚ
  capex_inv : ℚ
  capex_gen : ℚ
  capex_total : ℚ
  annual_om : ℚ
  annualized_pv : ℚ
  annualized_batt : ℚ
  annualized_inv : ℚ
  annualized_gen : ℚ
  total_annual_cost : ℚ
  lcoe : Option ℚ
  warnings : List String
deriving DecidableEq

def size_result (c : Costs) (ghi : List ℚ)
    (load_kwh_day fuel_cost_usd_per_l solar_fraction autonomy_days load_factor : ℚ) : SizeResult :=
  { ghi_worst := ghi_worst ghi
    ghi_median := ghi_median ghi
    e_pv_per_kw_day := e_pv_per_kw_day ghi
    pv_kw := pv_kw ghi load_kwh_day solar_fraction
    batt_kwh := batt_kwh load_kwh_day autonomy_days
    inverter_kw := inverter_kw ghi load_kwh_day solar_fraction load_factor
    gen_kw := gen_nameplate_kw load_kwh_day load_factor
    panel_count := panel_count ghi load_kwh_day solar_fraction
    battery_count := battery_count load_kwh_day autonomy_days
    annual_load := annual_load load_kwh_day
    annual_pv_energy := annual_pv_energy ghi load_kwh_day solar_fraction
    served_by_pv_batt := served_by_pv_batt ghi load_kwh_day solar_fraction
    served_by_gen := served_by_gen ghi load_kwh_day solar_fraction
    annual_fuel_liters := annual_fuel_liters ghi load_kwh_day solar_fraction
    annual_fuel_cost := annual_fuel_cost ghi load_kwh_day solar_fraction fuel_cost_usd_per_l
    capex_pv := capex_pv c ghi load_kwh_day solar_fraction
    capex_batt := capex_batt c load_kwh_day autonomy_days
    capex_inv := capex_inv c ghi load_kwh_day solar_fraction load_factor
    capex_gen := capex_gen c load_kwh_day load_factor
    capex_total := capex_total c ghi load_kwh_day solar_fraction autonomy_days load_factor
    annual_om := annual_om c ghi load_kwh_day solar_fraction autonomy_days load_factor
    annualized_pv := annualized_pv c ghi load_kwh_day solar_fraction
    annualized_batt := annualized_batt c load_kwh_day autonomy_days
    annualized_inv := annualized_inv c ghi load_kwh_day solar_fraction load_factor
    annualized_gen := annualized_gen c load_kwh_day load_factor
    total_annual_cost := total_annual_cost c ghi load_kwh_day fuel_cost_usd_per_l
      solar_fraction autonomy_days load_factor
    lcoe := lcoe c ghi load_kwh_day fuel_cost_usd_per_l solar_fraction autonomy_days load_factor
    warnings := warnings ghi load_kwh_day solar_fraction autonomy_days load_factor }

/-- The sizing computation on an already-fetched irradiance series:
the `raise ValueError("Computed zero PV output; invalid GHI.")` guard,
then the straight-line result construction. -/
def size_system_core (c : Costs) (ghi : List ℚ)
    (load_kwh_day fuel_cost_usd_per_l solar_fraction autonomy_days load_factor : ℚ) :
    Except String SizeResult :=
  if e_pv_per_kw_day ghi ≤ 0 then
    Except.error "Computed zero PV output; invalid GHI."
  else
    Except.ok (size_result c ghi load_kwh_day fuel_cost_usd_per_l solar_fraction
      autonomy_days load_factor)

/-- Full `size_system` end to end: fetch the irradiance series, then size. -/
def size_system (c : Costs) (param : String → Option JVal)
    (load_kwh_day fuel_cost_usd_per_l solar_fraction autonomy_days load_factor : ℚ) :
    Except String SizeResult :=
  (fetch_nasa_ghi param).bind fun ghi_vals =>
    size_system_core c ghi_vals load_kwh_day fuel_cost_usd_per_l solar_fraction
      autonomy_days load_factor

/-- The concrete 12-month irradiance series of the end-to-end example:
minimum 4.0, median 4.5. -/
def exampleSeries : List ℚ :=
  [4.0, 4.2, 4.3, 4.4, 4.4, 4.5, 4.5, 4.6, 4.7, 4.8, 4.9, 5.0]

def exampleResult : SizeResult :=
  size_result defaultCosts exampleSeries 10 (6/5) (4/5) 1 (3/5)

def badParam : String → Option JVal :=
  fun m => if m = "FEB" then none else some (JVal.num 4)

/-! ### Helper lemmas -/

lemma example_ghi_worst : ghi_worst exampleSeries = 4 := by
  norm_num [ghi_worst, pymin, exampleSeries, min_def]

lemma example_ghi_median : ghi_median exampleSeries = 9/2 := by
  norm_num [ghi_median, median, exampleSeries, List.insertionSort, List.orderedInsert, List.getD]

lemma example_seasonality : seasonality exampleSeries = 9/8 := by
  rw [seasonality, if_pos (by rw [example_ghi_worst]; norm_num), example_ghi_worst,
    example_ghi_median]
  norm_num

lemma example_e_pv : e_pv_per_kw_day exampleSeries = 3 := by
  rw [e_pv_per_kw_day, example_ghi_worst, PR]; norm_num

lemma example_pv_kw : pv_kw exampleSeries 10 (4/5) = 8/3 := by
  rw [pv_kw, if_neg (by rw [example_seasonality]; norm_num), example_e_pv]
  norm_num

lemma exampleCore_ok :
    size_system_core defaultCosts exampleSeries 10 (6/5) (4/5) 1 (3/5)
      = Except.ok exampleResult := by
  rw [exampleResult, size_system_core, if_neg]
  rw [example_e_pv]; norm_num

lemma core_ok_elim {c : Costs} {ghi : List ℚ} {load_kwh_day fuel frac aut lf : ℚ}
    {r : SizeResult}
    (h : size_system_core c ghi load_kwh_day fuel frac aut lf = Except.ok r) :
    r = size_result c ghi load_kwh_day fuel frac aut lf ∧ 0 < e_pv_per_kw_day ghi := by
  unfold size_system_core at h
  split at h
  · exact absurd h (by simp)
  · next hcond => exact ⟨((Except.ok.injEq _ _).mp h).symm, not_le.mp hcond⟩

lemma mem_ite_singleton {c : Prop} [Decidable c] (w s : String) :
    s ∈ (if c then [w] else []) ↔ c ∧ s = w := by
  split_ifs with h <;> simp_all

lemma warn_seasonality_mem_iff (ghi : List ℚ) (load_kwh_day frac aut lf : ℚ) :
    warn_seasonality ∈ warnings ghi load_kwh_day frac aut lf ↔ 1.4 < seasonality ghi := by
  rw [warnings]
  constructor
  · intro hmem
    rcases List.mem_append.mp hmem with h | h
    · rcases List.mem_append.mp h with h | h
      · rcases List.mem_append.mp h with h | h
        · exact absurd ((mem_ite_singleton _ _).mp h).2 (by decide)
        · exact ((mem_ite_singleton _ _).mp h).1
      · exact absurd ((mem_ite_singleton _ _).mp h).2 (by decide)
    · exact absurd ((mem_ite_singleton _ _).mp h).2 (by decide)
  · intro hc
    exact List.mem_append.mpr (Or.inl (List.mem_append.mpr (Or.inl (List.mem_append.mpr
      (Or.inr ((mem_ite_singleton _ _).mpr ⟨hc, rfl⟩))))))

lemma warn_inverter_mem_iff (ghi : List ℚ) (load_kwh_day frac aut lf : ℚ) :
    warn_inverter ∈ warnings ghi load_kwh_day frac aut lf ↔
      inverter_kw ghi load_kwh_day frac lf < peak_kw load_kwh_day lf := by
  rw [warnings]
  constructor
  · intro hmem
    rcases List.mem_append.mp hmem with h | h
    · rcases List.mem_append.mp h with h | h
      · rcases List.mem_append.mp h with h | h
        · exact absurd ((mem_ite_singleton _ _).mp h).2 (by decide)
        · exact absurd ((mem_ite_singleton _ _).mp h).2 (by decide)
      · exact absurd ((mem_ite_singleton _ _).mp h).2 (by decide)
    · exact ((mem_ite_singleton _ _).mp h).1
  · intro hc
    exact List.mem_append.mpr (Or.inr ((mem_ite_singleton _ _).mpr ⟨hc, rfl⟩))

/-! ### Claims -/

/-- C1: on the 12-month irradiance series with minimum 4.0 and median 4.5,
with dailyLoadKWh = 10, renewablesFraction = 0.8, autonomyDays = 1 and
loadFactor = 0.6, the sizing function succeeds and produces (before display
rounding) pvYieldPerKWPerDay = 3, pvKW = 8/3 with no seasonality margin,
battKWh = 1000/81, peakKW = 25/36, generator nameplate 5 kW, and
inverterKW = 0.8 * pvKW = 32/15. -/
theorem end_to_end_example_sizing :
    (∃ r, size_system_core defaultCosts exampleSeries 10 (6/5) (4/5) 1 (3/5) = Except.ok r
      ∧ r.e_pv_per_kw_day = 3
      ∧ r.pv_kw = 8/3
      ∧ r.batt_kwh = 1000/81
      ∧ r.gen_kw = 5
      ∧ r.inverter_kw = INVERTER_UTIL_KW_PER_PV * (8/3)
      ∧ warn_seasonality ∉ r.warnings)
    ∧ ghi_worst exampleSeries = 4
    ∧ ghi_median exampleSeries = 9/2
    ∧ peak_kw 10 (3/5) = 25/36
    ∧ ¬ 1.4 < seasonality exampleSeries := by
  refine ⟨⟨exampleResult, exampleCore_ok, example_e_pv, example_pv_kw, ?_, ?_, ?_, ?_⟩,
    example_ghi_worst, example_ghi_median, ?_, ?_⟩
  · show batt_kwh 10 1 = 1000/81
    rw [batt_kwh, BATTERY_EFFECTIVE, BATTERY_DOD, BATTERY_ROUNDTRIP]; norm_num
  · show gen_nameplate_kw 10 (3/5) = 5
    rw [gen_nameplate_kw, round_up_to_step, gen_kw, peak_kw, GENERATOR_SF]
    norm_num [max_def, Int.ceil_eq_iff]
  · show inverter_kw exampleSeries 10 (4/5) (3/5) = INVERTER_UTIL_KW_PER_PV * (8/3)
    rw [inverter_kw, example_pv_kw, peak_kw, INVERTER_UTIL_KW_PER_PV]
    norm_num [max_def]
  · show warn_seasonality ∉ warnings exampleSeries 10 (4/5) 1 (3/5)
    rw [warn_seasonality_mem_iff, example_seasonality]
    norm_num
  · rw [peak_kw]; norm_num [max_def]
  · rw [example_seasonality]; norm_num

/-- C2: for every input the sizing accepts with positive daily load, the
energy balance is exact (servedByPVBatt + servedByGenerator = annualLoad:
the max(0, .) clamp never binds because servedByPVBatt is capped at
PV_UTILIZATION = 0.9 of annualLoad), and the generator serves at least
10% of the annual load whatever the renewables-fraction target. -/
theorem energy_balance_generator_floor (ghi : List ℚ)
    (load_kwh_day fuel frac aut lf : ℚ) (r : SizeResult)
    (hload : 0 < load_kwh_day)
    (h : size_system_core defaultCosts ghi load_kwh_day fuel frac aut lf = Except.ok r) :
    r.served_by_pv_batt + r.served_by_gen = r.annual_load
      ∧ (1/10) * r.annual_load ≤ r.served_by_gen := by
  obtain ⟨rfl, -⟩ := core_ok_elim h
  have haL : 0 < annual_load load_kwh_day := by
    rw [annual_load]; nlinarith
  have hmin : min (annual_load load_kwh_day) (annual_pv_energy ghi load_kwh_day frac)
      ≤ annual_load load_kwh_day := min_le_left _ _
  have hs : served_by_pv_batt ghi load_kwh_day frac ≤ 9/10 * annual_load load_kwh_day := by
    rw [served_by_pv_batt, PV_UTILIZATION]
    nlinarith
  have hgen : served_by_gen ghi load_kwh_day frac
      = annual_load load_kwh_day - served_by_pv_batt ghi load_kwh_day frac := by
    rw [served_by_gen]
    exact max_eq_right (by linarith)
  constructor
  · show served_by_pv_batt ghi load_kwh_day frac + served_by_gen ghi load_kwh_day frac
      = annual_load load_kwh_day
    linarith [hgen]
  · show (1/10) * annual_load load_kwh_day ≤ served_by_gen ghi load_kwh_day frac
    linarith [hgen]

/-- C3: for every input the sizing accepts, the inverter is at least the
peak load (inverterKW = max(peakKW, 0.8 * pvKW)), so the undersized-inverter
warning is never in the result's warning list. -/
theorem inverter_covers_peak (ghi : List ℚ)
    (load_kwh_day fuel frac aut lf : ℚ) (r : SizeResult)
    (h : size_system_core defaultCosts ghi load_kwh_day fuel frac aut lf = Except.ok r) :
    peak_kw load_kwh_day lf ≤ r.inverter_kw ∧ warn_inverter ∉ r.warnings := by
  obtain ⟨rfl, -⟩ := core_ok_elim h
  constructor
  · exact le_max_left _ _
  · show warn_inverter ∉ warnings ghi load_kwh_day frac aut lf
    rw [warn_inverter_mem_iff]
    exact not_lt.mpr (le_max_left _ _)

/-- C4: for every input the sizing accepts: when medianGHI / worstMonthGHI
exceeds 1.4, the returned pvKW is exactly 1.15 times the unmargined value
dailyLoad * fraction / (worstMonthGHI * PR) and the seasonality warning is
present; when the ratio is at most 1.4, pvKW is the unmargined value and
the warning is absent. -/
theorem seasonality_margin (ghi : List ℚ)
    (load_kwh_day fuel frac aut lf : ℚ) (r : SizeResult)
    (h : size_system_core defaultCosts ghi load_kwh_day fuel frac aut lf = Except.ok r) :
    (1.4 < ghi_median ghi / ghi_worst ghi →
       r.pv_kw = load_kwh_day * frac / (ghi_worst ghi * PR) * 1.15
         ∧ warn_seasonality ∈ r.warnings)
    ∧ (ghi_median ghi / ghi_worst ghi ≤ 1.4 →
       r.pv_kw = load_kwh_day * frac / (ghi_worst ghi * PR)
         ∧ warn_seasonality ∉ r.warnings) := by
  obtain ⟨rfl, hpos⟩ := core_ok_elim h
  have hw : 0 < ghi_worst ghi := by
    rw [e_pv_per_kw_day, PR] at hpos
    nlinarith
  have hseas : seasonality ghi = ghi_median ghi / ghi_worst ghi := by
    rw [seasonality, if_pos hw]
  constructor
  · intro hratio
    constructor
    · show pv_kw ghi load_kwh_day frac = _
      rw [pv_kw, e_pv_per_kw_day]
      rw [if_pos (by rw [hseas]; exact hratio)]
    · show warn_seasonality ∈ warnings ghi load_kwh_day frac aut lf
      rw [warn_seasonality_mem_iff, hseas]
      exact hratio
  · intro hratio
    constructor
    · show pv_kw ghi load_kwh_day frac = _
      rw [pv_kw, e_pv_per_kw_day]
      rw [if_neg (by rw [hseas]; exact not_lt.mpr hratio)]
    · show warn_seasonality ∉ warnings ghi load_kwh_day frac aut lf
      rw [warn_seasonality_mem_iff, hseas]
      exact not_lt.mpr hratio

/-- C5: for a 12-value irradiance series whose minimum is nonpositive, the
sizing fails with the DomainError "Computed zero PV output; invalid GHI."
and returns no result; when the minimum is positive that failure branch is
never taken and a result is returned. -/
theorem zero_pv_domain_error (ghi : List ℚ) (load_kwh_day fuel frac aut lf : ℚ)
    (hlen : ghi.length = 12) :
    (pymin ghi ≤ 0 →
       size_system_core defaultCosts ghi load_kwh_day fuel frac aut lf
         = Except.error "Computed zero PV output; invalid GHI.")
    ∧ (0 < pymin ghi →
       ∃ r, size_system_core defaultCosts ghi load_kwh_day fuel frac aut lf
         = Except.ok r) := by
  constructor
  · intro hmin
    rw [size_system_core, if_pos]
    rw [e_pv_per_kw_day, ghi_worst, PR]
    nlinarith
  · intro hmin
    refine ⟨size_result defaultCosts ghi load_kwh_day fuel frac aut lf, ?_⟩
    rw [size_system_core, if_neg]
    rw [e_pv_per_kw_day, ghi_worst, PR]
    nlinarith

lemma collect_values_length_le (param : String → Option JVal) :
    ∀ ms l, collect_values param ms = Except.ok l → l.length ≤ ms.length := by
  intro ms
  induction ms with
  | nil =>
    intro l h
    rw [collect_values] at h
    injection h with h
    subst h
    exact Nat.le_refl _
  | cons m ms ih =>
    intro l h
    rw [collect_values] at h
    cases hp : param m with
    | none =>
      rw [hp] at h
      exact Nat.le_succ_of_le (ih l h)
    | some v =>
      cases v with
      | num q =>
        rw [hp] at h
        cases hc : collect_values param ms with
        | error e => rw [hc] at h; simp [Except.map] at h
        | ok l2 =>
          rw [hc] at h
          simp only [Except.map] at h
          injection h with h
          subst h
          simpa using ih l2 hc
      | other => rw [hp] at h; simp [Except.map] at h

lemma collect_values_all_num (param : String → Option JVal) :
    ∀ ms l, collect_values param ms = Except.ok l → ms.length ≤ l.length →
      ∀ m ∈ ms, ∃ q, param m = some (JVal.num q) := by
  intro ms
  induction ms with
  | nil => simp
  | cons m0 ms ih =>
    intro l h hlen m hm
    rw [collect_values] at h
    cases hp : param m0 with
    | none =>
      rw [hp] at h
      have hle := collect_values_length_le param ms l h
      simp at hlen
      omega
    | some v =>
      cases v with
      | other => rw [hp] at h; simp [Except.map] at h
      | num q =>
        rw [hp] at h
        cases hc : collect_values param ms with
        | error e => rw [hc] at h; simp [Except.map] at h
        | ok l2 =>
          rw [hc] at h
          simp only [Except.map] at h
          injection h with h
          subst h
          rcases List.mem_cons.mp hm with rfl | hm2
          · exact ⟨q, hp⟩
          · exact ih l2 hc (by simpa using hlen) m hm2

lemma collect_values_short_of_bad (param : String → Option JVal) (m : String)
    (hbad : ∀ q, param m ≠ some (JVal.num q)) :
    ∀ ms, m ∈ ms → ∀ l, collect_values param ms = Except.ok l → l.length < ms.length := by
  intro ms
  induction ms with
  | nil => simp
  | cons m0 ms ih =>
    intro hm l h
    rw [collect_values] at h
    cases hp : param m0 with
    | none =>
      rw [hp] at h
      have := collect_values_length_le param ms l h
      simp
      omega
    | some v =>
      cases v with
      | other => rw [hp] at h; simp [Except.map] at h
      | num q =>
        rw [hp] at h
        cases hc : collect_values param ms with
        | error e => rw [hc] at h; simp [Except.map] at h
        | ok l2 =>
          rw [hc] at h
          simp only [Except.map] at h
          injection h with h
          subst h
          have hm2 : m ∈ ms := by
            rcases List.mem_cons.mp hm with rfl | h2
            · exact absurd hp (hbad q)
            · exact h2
          have := ih hm2 l2 hc
          simp
          omega

/-- C6: the irradiance fetch produces a series only when all 12 calendar
months resolve to numeric values (and then it has exactly 12 entries, no
partial or substituted series); if any month is missing or non-numeric,
it fails with a DataError. -/
theorem fetch_requires_12_months (param : String → Option JVal) :
    (∀ vals, fetch_nasa_ghi param = Except.ok vals →
       vals.length = 12 ∧ ∀ m ∈ months_order, ∃ q, param m = some (JVal.num q))
    ∧ ((∃ m ∈ months_order, ∀ q, param m ≠ some (JVal.num q)) →
       ∃ e, fetch_nasa_ghi param = Except.error e) := by
  have hmo : months_order.length = 12 := rfl
  constructor
  · intro vals h
    rw [fetch_nasa_ghi] at h
    cases hc : collect_values param months_order with
    | error e => rw [hc] at h; simp [Except.bind] at h
    | ok l =>
      rw [hc] at h
      simp only [Except.bind] at h
      by_cases hl : l.length = 12
      · rw [if_pos hl] at h
        injection h with h
        subst h
        exact ⟨hl, collect_values_all_num param months_order l hc (by omega)⟩
      · rw [if_neg hl] at h
        simp at h
  · rintro ⟨m, hm, hbad⟩
    rw [fetch_nasa_ghi]
    cases hc : collect_values param months_order with
    | error e => exact ⟨e, by simp [Except.bind]⟩
    | ok l =>
      have hlt := collect_values_short_of_bad param m hbad months_order hm l hc
      have hne : ¬ l.length = 12 := by omega
      exact ⟨_, by simp only [Except.bind]; rw [if_neg hne]⟩

/-- C7: for every input the sizing accepts, the generator nameplate is an
exact multiple of 5 kW and is at least generatorSafetyFactor * peakKW:
`round_up_to_step` never rounds to nearest or down. -/
theorem gen_nameplate_step_and_cover (ghi : List ℚ)
    (load_kwh_day fuel frac aut lf : ℚ) (r : SizeResult)
    (h : size_system_core defaultCosts ghi load_kwh_day fuel frac aut lf = Except.ok r) :
    (∃ n : ℤ, r.gen_kw = 5 * (n : ℚ))
      ∧ GENERATOR_SF * peak_kw load_kwh_day lf ≤ r.gen_kw := by
  obtain ⟨rfl, -⟩ := core_ok_elim h
  constructor
  · refine ⟨⌈gen_kw load_kwh_day lf / 5⌉, ?_⟩
    show gen_nameplate_kw load_kwh_day lf = _
    rw [gen_nameplate_kw, round_up_to_step]
    norm_num
    ring
  · show GENERATOR_SF * peak_kw load_kwh_day lf ≤ gen_nameplate_kw load_kwh_day lf
    have hceil := Int.le_ceil (gen_kw load_kwh_day lf / 5)
    rw [gen_nameplate_kw, round_up_to_step, gen_kw] at *
    norm_num at *
    linarith

/-- C8: for every input the sizing accepts, the bill-of-materials counts
over-cover the continuous sizes: panelCount panels of PANEL_WATTS watts
give at least pvKW, and batteryCount modules of BATTERY_UNIT_KWH give at
least battKWh. -/
theorem bom_counts_cover (ghi : List ℚ)
    (load_kwh_day fuel frac aut lf : ℚ) (r : SizeResult)
    (h : size_system_core defaultCosts ghi load_kwh_day fuel frac aut lf = Except.ok r) :
    r.pv_kw ≤ (r.panel_count : ℚ) * PANEL_WATTS / 1000
      ∧ r.batt_kwh ≤ (r.battery_count : ℚ) * BATTERY_UNIT_KWH := by
  obtain ⟨rfl, -⟩ := core_ok_elim h
  constructor
  · show pv_kw ghi load_kwh_day frac ≤ (panel_count ghi load_kwh_day frac : ℚ) * PANEL_WATTS / 1000
    have hceil := Int.le_ceil (pv_kw ghi load_kwh_day frac * 1000.0 / PANEL_WATTS)
    rw [panel_count]
    rw [PANEL_WATTS] at *
    norm_num at *
    linarith
  · show batt_kwh load_kwh_day aut ≤ (battery_count load_kwh_day aut : ℚ) * BATTERY_UNIT_KWH
    have hceil := Int.le_ceil (batt_kwh load_kwh_day aut / BATTERY_UNIT_KWH)
    rw [battery_count]
    rw [BATTERY_UNIT_KWH] at *
    norm_num at *
    linarith

/-- C9: LCOE is homogeneous of degree 1 in the monetary rates: scaling all
unit capital costs, O&M rates and the fuel price by k > 0 scales the total
annual cost and the LCOE by exactly k and leaves every physical size and
count unchanged. -/
theorem lcoe_homogeneous_in_rates (c : Costs) (k : ℚ) (ghi : List ℚ)
    (load_kwh_day fuel frac aut lf : ℚ) (r : SizeResult)
    (hk : 0 < k)
    (h : size_system_core c ghi load_kwh_day fuel frac aut lf = Except.ok r) :
    ∃ r2, size_system_core (scaleCosts k c) ghi load_kwh_day (k * fuel) frac aut lf
        = Except.ok r2
      ∧ r2.total_annual_cost = k * r.total_annual_cost
      ∧ r2.lcoe = r.lcoe.map (fun x => k * x)
      ∧ r2.pv_kw = r.pv_kw ∧ r2.batt_kwh = r.batt_kwh ∧ r2.inverter_kw = r.inverter_kw
      ∧ r2.gen_kw = r.gen_kw ∧ r2.panel_count = r.panel_count
      ∧ r2.battery_count = r.battery_count := by
  obtain ⟨rfl, hpos⟩ := core_ok_elim h
  have htot : total_annual_cost (scaleCosts k c) ghi load_kwh_day (k * fuel) frac aut lf
      = k * total_annual_cost c ghi load_kwh_day fuel frac aut lf := by
    rw [total_annual_cost, total_annual_cost, annualized_pv, annualized_pv,
      annualized_batt, annualized_batt, annualized_inv, annualized_inv,
      annualized_gen, annualized_gen, annualize, annualize, annualize, annualize,
      annualize, annualize, annualize, annualize, annual_om, annual_om,
      annual_fuel_cost, annual_fuel_cost, capex_pv, capex_pv, capex_batt, capex_batt,
      capex_inv, capex_inv, capex_gen, capex_gen, scaleCosts]
    ring
  refine ⟨size_result (scaleCosts k c) ghi load_kwh_day (k * fuel) frac aut lf,
    by rw [size_system_core, if_neg (not_le.mpr hpos)],
    htot, ?_, rfl, rfl, rfl, rfl, rfl, rfl⟩
  show lcoe (scaleCosts k c) ghi load_kwh_day (k * fuel) frac aut lf
    = (lcoe c ghi load_kwh_day fuel frac aut lf).map (fun x => k * x)
  rw [lcoe, lcoe, htot]
  split_ifs with haL
  · show _ = some (k * (total_annual_cost c ghi load_kwh_day fuel frac aut lf
      / annual_load load_kwh_day))
    rw [mul_div_assoc]
  · rfl

/-- C10: for every input the sizing accepts, when annualLoad > 0 the LCOE
equals totalAnnualCost / annualLoad computed from the unrounded
intermediates, and when annualLoad = 0 it is the defined infinite sentinel
(`none`) instead of a division-by-zero crash. -/
theorem lcoe_definition_and_sentinel (ghi : List ℚ)
    (load_kwh_day fuel frac aut lf : ℚ) (r : SizeResult)
    (h : size_system_core defaultCosts ghi load_kwh_day fuel frac aut lf = Except.ok r) :
    (0 < r.annual_load → r.lcoe = some (r.total_annual_cost / r.annual_load))
    ∧ (r.annual_load = 0 → r.lcoe = none) := by
  obtain ⟨rfl, -⟩ := core_ok_elim h
  simp only [size_result]
  constructor
  · intro haL
    rw [lcoe, if_pos haL]
  · intro haL
    rw [lcoe, if_neg (by rw [haL]; exact lt_irrefl 0)]

/-! ### Witnesses -/

theorem energy_balance_generator_floor_witness :
    exampleResult.served_by_pv_batt + exampleResult.served_by_gen = exampleResult.annual_load
      ∧ (1/10) * exampleResult.annual_load ≤ exampleResult.served_by_gen :=
  energy_balance_generator_floor exampleSeries 10 (6/5) (4/5) 1 (3/5) exampleResult
    (by norm_num) exampleCore_ok

theorem inverter_covers_peak_witness :
    peak_kw 10 (3/5) ≤ exampleResult.inverter_kw
      ∧ warn_inverter ∉ exampleResult.warnings :=
  inverter_covers_peak exampleSeries 10 (6/5) (4/5) 1 (3/5) exampleResult exampleCore_ok

theorem seasonality_margin_witness :
    (1.4 < ghi_median exampleSeries / ghi_worst exampleSeries →
       exampleResult.pv_kw = 10 * (4/5) / (ghi_worst exampleSeries * PR) * 1.15
         ∧ warn_seasonality ∈ exampleResult.warnings)
    ∧ (ghi_median exampleSeries / ghi_worst exampleSeries ≤ 1.4 →
       exampleResult.pv_kw = 10 * (4/5) / (ghi_worst exampleSeries * PR)
         ∧ warn_seasonality ∉ exampleResult.warnings) :=
  seasonality_margin exampleSeries 10 (6/5) (4/5) 1 (3/5) exampleResult exampleCore_ok

theorem zero_pv_domain_error_witness :
    ∃ r, size_system_core defaultCosts exampleSeries 10 (6/5) (4/5) 1 (3/5) = Except.ok r :=
  (zero_pv_domain_error exampleSeries 10 (6/5) (4/5) 1 (3/5) rfl).2
    (by have h4 := example_ghi_worst; rw [ghi_worst] at h4; rw [h4]; norm_num)

theorem fetch_requires_12_months_witness :
    ∃ e, fetch_nasa_ghi badParam = Except.error e :=
  (fetch_requires_12_months badParam).2
    ⟨"FEB", by decide, fun q => by simp [badParam]⟩

theorem gen_nameplate_step_and_cover_witness :
    (∃ n : ℤ, exampleResult.gen_kw = 5 * (n : ℚ))
      ∧ GENERATOR_SF * peak_kw 10 (3/5) ≤ exampleResult.gen_kw :=
  gen_nameplate_step_and_cover exampleSeries 10 (6/5) (4/5) 1 (3/5) exampleResult exampleCore_ok

theorem bom_counts_cover_witness :
    exampleResult.pv_kw ≤ (exampleResult.panel_count : ℚ) * PANEL_WATTS / 1000
      ∧ exampleResult.batt_kwh ≤ (exampleResult.battery_count : ℚ) * BATTERY_UNIT_KWH :=
  bom_counts_cover exampleSeries 10 (6/5) (4/5) 1 (3/5) exampleResult exampleCore_ok

theorem lcoe_homogeneous_in_rates_witness :
    ∃ r2, size_system_core (scaleCosts 2 defaultCosts) exampleSeries 10 (2 * (6/5)) (4/5) 1 (3/5)
        = Except.ok r2
      ∧ r2.total_annual_cost = 2 * exampleResult.total_annual_cost
      ∧ r2.lcoe = exampleResult.lcoe.map (fun x => 2 * x)
      ∧ r2.pv_kw = exampleResult.pv_kw ∧ r2.batt_kwh = exampleResult.batt_kwh
      ∧ r2.inverter_kw = exampleResult.inverter_kw
      ∧ r2.gen_kw = exampleResult.gen_kw ∧ r2.panel_count = exampleResult.panel_count
      ∧ r2.battery_count = exampleResult.battery_count :=
  lcoe_homogeneous_in_rates defaultCosts 2 exampleSeries 10 (6/5) (4/5) 1 (3/5) exampleResult
    (by norm_num) exampleCore_ok

theorem lcoe_definition_and_sentinel_witness :
    (0 < exampleResult.annual_load →
       exampleResult.lcoe = some (exampleResult.total_annual_cost / exampleResult.annual_load))
    ∧ (exampleResult.annual_load = 0 → exampleResult.lcoe = none) :=
  lcoe_definition_and_sentinel exampleSeries 10 (6/5) (4/5) 1 (3/5) exampleResult exampleCore_ok
